import Mathlib

/-!
Shallow embedding of the yield-formula recognition and validation pipeline of
`scripts/migrate-yield-formulas.py` and `scripts/convert-yield-formulas.py`.

Numbers are modelled as rationals (`ℚ`); the Python scripts manipulate exact
decimal literals, and every claim checked here concerns exact values.  Python
strings are modelled as `String` / `List Char`; `str.replace` is modelled by a
fuel-based scanner (`replaceGo`) with the same left-to-right non-overlapping
semantics.  Each anchored regular expression of the source (all of the shape
`^lit (\d+\.?\d*) lit ... $`) is modelled as a token sequence (`runShape`)
whose greedy maximal-munch number parsing coincides with the regex because in
every pattern a capture group is followed by a non-digit, non-dot literal.
A Python `float(...)` of a decimal literal is modelled exactly in `ℚ`.
Division inside `calculate_yield` is modelled in an `Except` monad (`cdiv`) so
that the presence or absence of a `ZeroDivisionError` is expressible.
-/

set_option maxRecDepth 2000

namespace CropPlan

-- Batteries marks the core rational operations irreducible; the concrete
-- evaluations below go through `decide`, which needs them to unfold.
attribute [local semireducible] Rat.mul Rat.inv Rat.add Rat.sub

/-- The `YieldModel` dataclass of `migrate-yield-formulas.py` (lines 19-25). -/
structure YieldModel where
  basis : String
  rate : ℚ
  harvest_multiplies : Bool
  pattern : String
  extra : Option ℚ := none
deriving DecidableEq, Repr

/-- Arithmetic expressions over the fixed identifier vocabulary; this is the
meaning of the target-formula strings emitted by `convert-yield-formulas.py`
(read with the usual precedence and left associativity). -/
inductive Expr where
  | num (q : ℚ)
  | var (name : String)
  | add (a b : Expr)
  | sub (a b : Expr)
  | mul (a b : Expr)
  | div (a b : Expr)
deriving DecidableEq, Repr

/-- The `FormulaConversion` dataclass of `convert-yield-formulas.py`
(lines 24-29); `formula` holds the denotation of the emitted string. -/
structure FormulaConversion where
  formula : Expr
  pattern : String
  is_total : Bool
deriving DecidableEq, Repr

/-- Match a literal character sequence at the head of the input, returning the
rest of the input on success. -/
def litP : List Char → List Char → Option (List Char)
  | [], s => some s
  | _ :: _, [] => none
  | c :: cs, d :: ds => if c = d then litP cs ds else none

/-- Maximal munch of decimal digits (the `\d+` / `\d*` pieces). -/
def digitsP : List Char → List Char × List Char
  | [] => ([], [])
  | c :: cs =>
    if c.isDigit then
      let p := digitsP cs
      (c :: p.1, p.2)
    else ([], c :: cs)

def natOfDigits (ds : List Char) : Nat :=
  ds.foldl (fun n c => n * 10 + (c.toNat - 48)) 0

/-- Exact rational value of a decimal literal with integer part `intPart`
and fractional part `fracPart` (the value Python's `float(...)` denotes). -/
def ratOfDigits (intPart fracPart : List Char) : ℚ :=
  mkRat (natOfDigits (intPart ++ fracPart)) (Nat.pow 10 fracPart.length)

/-- Parse one `\d+\.?\d*` capture group, greedily, returning its exact
rational value and the rest of the input. -/
def numP (s : List Char) : Option (ℚ × List Char) :=
  let p := digitsP s
  if p.1 = [] then none
  else
    match p.2 with
    | '.' :: r2 =>
      let p2 := digitsP r2
      some (ratOfDigits p.1 p2.1, p2.2)
    | r => some (ratOfDigits p.1 [], r)

/-- One anchored regular expression of the source, as a token sequence:
literal runs and `\d+\.?\d*` capture groups. -/
inductive Tok where
  | lit (s : String)
  | num
deriving Repr

/-- Run a token sequence against the whole input (the regexes are anchored
with `^...$`), returning the list of captured numbers. -/
def runShape : List Tok → List Char → Option (List ℚ)
  | [], s => if s = [] then some [] else none
  | .lit l :: ts, s => do
    let r ← litP l.data s
    runShape ts r
  | .num :: ts, s => do
    let p ← numP s
    let qs ← runShape ts p.2
    pure (p.1 :: qs)

/-- Fuel-driven scanner implementing `str.replace` for a nonempty pattern:
left-to-right, non-overlapping, the replacement text is not rescanned. -/
def replaceGo (pat rep : List Char) : Nat → List Char → List Char
  | 0, s => s
  | _ + 1, [] => []
  | n + 1, c :: cs =>
    match litP pat (c :: cs) with
    | some rest => rep ++ replaceGo pat rep n rest
    | none => c :: replaceGo pat rep n cs

/-- `s.replace(pat, rep)` (for the nonempty patterns used by the scripts;
fuel `s.length` suffices since every step consumes at least one character). -/
def replaceAll (s : List Char) (pat rep : String) : List Char :=
  replaceGo pat.data rep.data s.length s

/-- The normalization of `migrate-yield-formulas.py` lines 33-34: strip
structured table references and every `=`; column names are kept verbatim. -/
def normalizeMig (s : List Char) : List Char :=
  let f1 := replaceAll s "Crops[[#This Row]," ""
  let f2 := replaceAll f1 "]]" "]"
  let f3 := replaceAll f2 "[" ""
  let f4 := replaceAll f3 "]" ""
  replaceAll f4 "=" ""

/-- The normalization of `convert-yield-formulas.py` lines 49-63: strip
structured table references and `=`, then substitute canonical identifiers,
longest names first (`StandardBedLength` before `BedLength`). -/
def normalizeConv (s : List Char) : List Char :=
  let f1 := replaceAll s "Crops[[#This Row]," ""
  let f2 := replaceAll f1 "]]" "]"
  let f3 := replaceAll f2 "[" ""
  let f4 := replaceAll f3 "]" ""
  let f5 := replaceAll f4 "=" ""
  let f6 := replaceAll f5 "Plantings Per Bed" "plantingsPerBed"
  let f7 := replaceAll f6 "Days Between Harvest" "daysBetweenHarvest"
  let f8 := replaceAll f7 "StandardBedLength" "100"
  let f9 := replaceAll f8 "BedLength" "bedFeet"
  let f10 := replaceAll f9 "Harvests" "harvests"
  let f11 := replaceAll f10 "Seeds Per Bed" "seeds"
  replaceAll f11 "Safety Factor" "safetyFactor"

/-- First matcher in an ordered list to fire wins (the regex cascade). -/
def firstSome {α β : Type} : List (α → Option β) → α → Option β
  | [], _ => none
  | f :: fs, a =>
    match f a with
    | some b => some b
    | none => firstSome fs a

/-- The ordered regex cascade of `parse_uph_formula`
(`migrate-yield-formulas.py` lines 36-244), one matcher per `re.match`, in
source order.  Captured groups are read positionally with `getD`. -/
def migBranches : List (List Char → Option YieldModel) :=
  [ -- line 39: ^Plantings Per Bed\*(k)/Harvests$
    fun f => (runShape [.lit "Plantings Per Bed*", .num, .lit "/Harvests"] f).map
      (fun qs => ⟨"per-plant", qs.getD 0 0, false, "PPB_MULT_DIV_H", none⟩),
    -- line 44: ^Plantings Per Bed/(k)/Harvests$
    fun f => (runShape [.lit "Plantings Per Bed/", .num, .lit "/Harvests"] f).map
      (fun qs => ⟨"per-plant", 1 / qs.getD 0 0, false, "PPB_DIV_DIV_H", none⟩),
    -- line 49: ^Plantings Per Bed/Harvests$
    fun f => (runShape [.lit "Plantings Per Bed/Harvests"] f).map
      (fun _ => ⟨"per-plant", 1, false, "PPB_DIV_DIV_H", none⟩),
    -- line 54: ^Plantings Per Bed\*(k)$
    fun f => (runShape [.lit "Plantings Per Bed*", .num] f).map
      (fun qs => ⟨"per-plant", qs.getD 0 0, true, "PPB_MULT", none⟩),
    -- line 59: ^Plantings Per Bed/(k)$
    fun f => (runShape [.lit "Plantings Per Bed/", .num] f).map
      (fun qs => ⟨"per-plant", 1 / qs.getD 0 0, true, "PPB_DIV", none⟩),
    -- line 64: ^Plantings Per Bed$
    fun f => (runShape [.lit "Plantings Per Bed"] f).map
      (fun _ => ⟨"per-plant", 1, true, "PPB_DIRECT", none⟩),
    -- line 69: ^Plantings Per Bed\*\((a)/(b)\)$
    fun f => (runShape [.lit "Plantings Per Bed*(", .num, .lit "/", .num, .lit ")"] f).map
      (fun qs => ⟨"per-plant", qs.getD 0 0 / qs.getD 1 0, true, "PPB_MULT", none⟩),
    -- line 74: ^Plantings Per Bed\*\((a)/(b)\)\*(c)$
    fun f => (runShape [.lit "Plantings Per Bed*(", .num, .lit "/", .num, .lit ")*", .num] f).map
      (fun qs => ⟨"per-plant", qs.getD 0 0 / qs.getD 1 0 * qs.getD 2 0, true, "PPB_MULT", none⟩),
    -- line 80: ^Plantings Per Bed\*(a)/(b)$
    fun f => (runShape [.lit "Plantings Per Bed*", .num, .lit "/", .num] f).map
      (fun qs => ⟨"per-plant", qs.getD 0 0 / qs.getD 1 0, true, "PPB_MULT", none⟩),
    -- line 85: ^Plantings Per Bed/(a)/(b)/Harvests$
    fun f => (runShape [.lit "Plantings Per Bed/", .num, .lit "/", .num, .lit "/Harvests"] f).map
      (fun qs => ⟨"per-plant", 1 / (qs.getD 0 0 * qs.getD 1 0), false, "PPB_DIV_DIV_H", none⟩),
    -- line 90: ^Plantings Per Bed/(a)/(b)/(c)/Harvests$
    fun f => (runShape [.lit "Plantings Per Bed/", .num, .lit "/", .num, .lit "/", .num,
        .lit "/Harvests"] f).map
      (fun qs => ⟨"per-plant", 1 / (qs.getD 0 0 * qs.getD 1 0 * qs.getD 2 0), false,
        "PPB_DIV_DIV_H", none⟩),
    -- line 95: ^Plantings Per Bed/(a)/(b)/(c)$
    fun f => (runShape [.lit "Plantings Per Bed/", .num, .lit "/", .num, .lit "/", .num] f).map
      (fun qs => ⟨"per-plant", 1 / (qs.getD 0 0 * qs.getD 1 0 * qs.getD 2 0), true,
        "PPB_DIV", none⟩),
    -- line 100: ^Plantings Per Bed\*(a)/(b)/Harvests$
    fun f => (runShape [.lit "Plantings Per Bed*", .num, .lit "/", .num, .lit "/Harvests"] f).map
      (fun qs => ⟨"per-plant", qs.getD 0 0 / qs.getD 1 0, false, "PPB_MULT_DIV_H", none⟩),
    -- line 105: ^Plantings Per Bed/(a)\*(b)/Harvests$
    fun f => (runShape [.lit "Plantings Per Bed/", .num, .lit "*", .num, .lit "/Harvests"] f).map
      (fun qs => ⟨"per-plant", qs.getD 1 0 / qs.getD 0 0, false, "PPB_MULT_DIV_H", none⟩),
    -- line 110: ^Plantings Per Bed\*(a)\*(b)/Harvests$
    fun f => (runShape [.lit "Plantings Per Bed*", .num, .lit "*", .num, .lit "/Harvests"] f).map
      (fun qs => ⟨"per-plant", qs.getD 0 0 * qs.getD 1 0, false, "PPB_MULT_DIV_H", none⟩),
    -- line 115: ^Plantings Per Bed\*(a)\*(b)\*(c)/Harvests$
    fun f => (runShape [.lit "Plantings Per Bed*", .num, .lit "*", .num, .lit "*", .num,
        .lit "/Harvests"] f).map
      (fun qs => ⟨"per-plant", qs.getD 0 0 * qs.getD 1 0 * qs.getD 2 0, false,
        "PPB_MULT_DIV_H", none⟩),
    -- line 120: ^Plantings Per Bed\*(a)\*(b)/(c)/Harvests$
    fun f => (runShape [.lit "Plantings Per Bed*", .num, .lit "*", .num, .lit "/", .num,
        .lit "/Harvests"] f).map
      (fun qs => ⟨"per-plant", qs.getD 0 0 * qs.getD 1 0 / qs.getD 2 0, false,
        "PPB_MULT_DIV_H", none⟩),
    -- line 125: ^Plantings Per Bed/Harvests\*(k)$
    fun f => (runShape [.lit "Plantings Per Bed/Harvests*", .num] f).map
      (fun qs => ⟨"per-plant", qs.getD 0 0, false, "PPB_MULT_DIV_H", none⟩),
    -- line 130: ^1/Harvests\*Plantings Per Bed$
    fun f => (runShape [.lit "1/Harvests*Plantings Per Bed"] f).map
      (fun _ => ⟨"per-plant", 1, false, "PPB_DIV_DIV_H", none⟩),
    -- line 135: ^Plantings Per Bed/(a)\*(b)$
    fun f => (runShape [.lit "Plantings Per Bed/", .num, .lit "*", .num] f).map
      (fun qs => ⟨"per-plant", qs.getD 1 0 / qs.getD 0 0, true, "PPB_MULT", none⟩),
    -- line 142: ^(k)\*BedLength/StandardBedLength/Harvests$
    fun f => (runShape [.num, .lit "*BedLength/StandardBedLength/Harvests"] f).map
      (fun qs => ⟨"per-100ft", qs.getD 0 0, false, "AREA_DIV_H", none⟩),
    -- line 147: ^(k)\*BedLength/StandardBedLength$
    fun f => (runShape [.num, .lit "*BedLength/StandardBedLength"] f).map
      (fun qs => ⟨"per-100ft", qs.getD 0 0, true, "AREA", none⟩),
    -- line 152: ^BedLength/Harvests$
    fun f => (runShape [.lit "BedLength/Harvests"] f).map
      (fun _ => ⟨"per-100ft", 100, false, "BEDLENGTH_DIV_H", none⟩),
    -- line 157: ^BedLength\*(k)/Harvests$
    fun f => (runShape [.lit "BedLength*", .num, .lit "/Harvests"] f).map
      (fun qs => ⟨"per-100ft", qs.getD 0 0 * 100, false, "BEDLENGTH_DIV_H", none⟩),
    -- line 162: ^(a)\*(b)\*BedLength/Harvests$
    fun f => (runShape [.num, .lit "*", .num, .lit "*BedLength/Harvests"] f).map
      (fun qs => ⟨"per-100ft", qs.getD 0 0 * qs.getD 1 0 * 100, false,
        "BEDLENGTH_DIV_H", none⟩),
    -- line 167: ^(a)\*BedLength/StandardBedLength/(b)\*(c)\*(d)/Harvests$
    fun f => (runShape [.num, .lit "*BedLength/StandardBedLength/", .num, .lit "*", .num,
        .lit "*", .num, .lit "/Harvests"] f).map
      (fun qs => ⟨"per-100ft", qs.getD 0 0 / qs.getD 1 0 * qs.getD 2 0 * qs.getD 3 0, false,
        "AREA_DIV_H", none⟩),
    -- line 180: ^Plantings Per Bed\*(k)\*Days Between Harvest/7$
    fun f => (runShape [.lit "Plantings Per Bed*", .num, .lit "*Days Between Harvest/7"] f).map
      (fun qs => ⟨"per-plant", qs.getD 0 0, true, "PPB_WEEKLY_RATE", none⟩),
    -- line 185: ^Plantings Per Bed\*Days Between Harvest/7$
    fun f => (runShape [.lit "Plantings Per Bed*Days Between Harvest/7"] f).map
      (fun _ => ⟨"per-plant", 1, true, "PPB_WEEKLY_RATE", none⟩),
    -- line 190: ^Plantings Per Bed\*(k)\*\(Days Between Harvest/7\)$
    fun f => (runShape [.lit "Plantings Per Bed*", .num, .lit "*(Days Between Harvest/7)"] f).map
      (fun qs => ⟨"per-plant", qs.getD 0 0, true, "PPB_WEEKLY_RATE", none⟩),
    -- line 195: ^Plantings Per Bed\*(k)\*Days Between Harvest$
    fun f => (runShape [.lit "Plantings Per Bed*", .num, .lit "*Days Between Harvest"] f).map
      (fun qs => ⟨"per-plant", qs.getD 0 0, true, "PPB_DBH_DIRECT", none⟩),
    -- line 208: ^(a)\*BedLength/StandardBedLength\*\(Harvests\*Days Between Harvest\)/(b)/Harvests$
    fun f => (runShape [.num, .lit "*BedLength/StandardBedLength*(Harvests*Days Between Harvest)/",
        .num, .lit "/Harvests"] f).map
      (fun qs => ⟨"per-100ft", qs.getD 0 0 / qs.getD 1 0, true, "AREA_DBH_SCALED", none⟩),
    -- line 216: same shape with a trailing \*(c)
    fun f => (runShape [.num, .lit "*BedLength/StandardBedLength*(Harvests*Days Between Harvest)/",
        .num, .lit "/Harvests*", .num] f).map
      (fun qs => ⟨"per-100ft", qs.getD 0 0 * qs.getD 2 0 / qs.getD 1 0, true,
        "AREA_DBH_SCALED", none⟩),
    -- line 226: ^1/(k)\*Seeds Per Bed/Safety Factor$
    fun f => (runShape [.lit "1/", .num, .lit "*Seeds Per Bed/Safety Factor"] f).map
      (fun qs => ⟨"per-plant", 1 / qs.getD 0 0, true, "SEEDS_BASED", none⟩),
    -- line 237: ^\((fixed)\+\(Harvests-1\)\*(rate)\*Plantings Per Bed\)/Harvests$
    fun f => (runShape [.lit "(", .num, .lit "+(Harvests-1)*", .num,
        .lit "*Plantings Per Bed)/Harvests"] f).map
      (fun qs => ⟨"per-plant", qs.getD 1 0, false, "LETTUCE_COMPLEX", some (qs.getD 0 0)⟩) ]

/-- `parse_uph_formula` of `migrate-yield-formulas.py` (lines 27-244): the
empty / no-`=` guard, then the normalization, then the ordered cascade. -/
def parse_uph_formula (raw : String) : Option YieldModel :=
  match raw.data with
  | '=' :: _ => firstSome migBranches (normalizeMig raw.data)
  | _ => none

/-- `calculate_ppb` (identical in both scripts; `migrate-yield-formulas.py`
lines 247-251): 0 when spacing or rows is missing (`None`), zero (falsy) or
non-positive, else `(12 / spacing) * rows * bed_length`. -/
def calculate_ppb : Option ℚ → Option ℚ → ℚ → ℚ
  | none, _, _ => 0
  | some _, none, _ => 0
  | some s, some r, bl => if s ≤ 0 ∨ r ≤ 0 then 0 else 12 / s * r * bl

/-- Python's `/`: raises `ZeroDivisionError` on a zero divisor. -/
def cdiv (a b : ℚ) : Except String ℚ := if b = 0 then .error "division by zero" else .ok (a / b)

/-- Apply `f` to the value of a non-raising computation, propagating a raised
exception (the implicit control flow of straight-line Python code). -/
def emap (f : ℚ → ℚ) : Except String ℚ → Except String ℚ
  | .error e => .error e
  | .ok x => .ok (f x)

/-- The `base_yield` computation of `calculate_yield`
(`migrate-yield-formulas.py` lines 260-285), taking the already-derived
`ppb`; every `/` of the source is a `cdiv`, and every `x if cond else y`
guard is modelled literally. -/
def calc_base_ppb (model : YieldModel) (ppb bl h dbh seeds sf : ℚ) : Except String ℚ :=
  if model.pattern = "PPB_WEEKLY_RATE" then
    emap (fun weeks => ppb * model.rate * weeks) (if dbh ≠ 0 then cdiv dbh 7 else .ok 1)
  else if model.pattern = "PPB_DBH_DIRECT" then
    .ok (ppb * model.rate * dbh)
  else if model.pattern = "AREA_DBH_SCALED" then
    emap (fun a => a * model.rate * dbh) (cdiv bl 100)
  else if model.pattern = "SEEDS_BASED" then
    if sf ≠ 0 then cdiv (seeds * model.rate) sf else .ok 0
  else if model.pattern = "LETTUCE_COMPLEX" then
    let fixedFirst : ℚ :=
      match model.extra with
      | some x => if x = 0 then 1 / 2 else x
      | none => 1 / 2
    emap (fun uph => uph * h)
      (if h ≠ 0 then cdiv (fixedFirst + (h - 1) * model.rate * ppb) h else .ok 0)
  else if model.basis = "per-plant" then
    .ok (ppb * model.rate)
  else
    emap (fun a => a * model.rate) (cdiv bl 100)

/-- `calculate_yield` from a precomputed `ppb`: the base result, multiplied
by `harvests` exactly when `model.harvest_multiplies` (lines 287-290). -/
def calc_yield_ppb (model : YieldModel) (ppb bl h dbh seeds sf : ℚ) : Except String ℚ :=
  emap (fun base => if model.harvest_multiplies then base * h else base)
    (calc_base_ppb model ppb bl h dbh seeds sf)

/-- The base result of `calculate_yield` (before the `harvest_multiplies`
step), from the raw row inputs. -/
def calc_base_yield (model : YieldModel) (spacing rows : Option ℚ)
    (bl h dbh seeds sf : ℚ) : Except String ℚ :=
  calc_base_ppb model (calculate_ppb spacing rows bl) bl h dbh seeds sf

/-- `calculate_yield` of `migrate-yield-formulas.py` (lines 254-290); the
Excel column values `spacing` and `rows` may be missing, hence `Option ℚ`. -/
def calculate_yield (model : YieldModel) (spacing rows : Option ℚ)
    (bl h dbh seeds sf : ℚ) : Except String ℚ :=
  calc_yield_ppb model (calculate_ppb spacing rows bl) bl h dbh seeds sf

def ppbV : Expr := .var "plantingsPerBed"
def bfV : Expr := .var "bedFeet"
def hV : Expr := .var "harvests"
def dbhV : Expr := .var "daysBetweenHarvest"
def seedsV : Expr := .var "seeds"

/-- The value printed into the emitted seed formula by `%.6f`-style
formatting (`f'{effective_rate:.6f}'`, `convert-yield-formulas.py` line 283):
round to six decimal places.  (No tie can arise for the rates concerned, so
the rounding mode is immaterial.) -/
def round6 (x : ℚ) : ℚ := mkRat (x * 1000000 + 1 / 2).floor 1000000

/-- The ordered cascade of `parse_and_convert`
(`convert-yield-formulas.py` lines 68-294), one matcher per `re.match`, in
source order; each result's `formula` is the denotation of the emitted
f-string (standard precedence, left associativity). -/
def convBranches : List (List Char → Option FormulaConversion) :=
  [ -- line 72: plantingsPerBed*(k)/harvests -> 'plantingsPerBed * {rate}'
    fun f => (runShape [.lit "plantingsPerBed*", .num, .lit "/harvests"] f).map
      (fun qs => ⟨.mul ppbV (.num (qs.getD 0 0)), "PPB_MULT_DIV_H", true⟩),
    -- line 78: plantingsPerBed/(k)/harvests -> 'plantingsPerBed * {1/k}'
    fun f => (runShape [.lit "plantingsPerBed/", .num, .lit "/harvests"] f).map
      (fun qs => ⟨.mul ppbV (.num (1 / qs.getD 0 0)), "PPB_DIV_DIV_H", true⟩),
    -- line 84: plantingsPerBed/harvests -> 'plantingsPerBed'
    fun f => (runShape [.lit "plantingsPerBed/harvests"] f).map
      (fun _ => ⟨ppbV, "PPB_DIV_H", true⟩),
    -- line 89: plantingsPerBed*(k) -> 'plantingsPerBed * {k} * harvests'
    fun f => (runShape [.lit "plantingsPerBed*", .num] f).map
      (fun qs => ⟨.mul (.mul ppbV (.num (qs.getD 0 0))) hV, "PPB_MULT", false⟩),
    -- line 95: plantingsPerBed/(k) -> 'plantingsPerBed * {1/k} * harvests'
    fun f => (runShape [.lit "plantingsPerBed/", .num] f).map
      (fun qs => ⟨.mul (.mul ppbV (.num (1 / qs.getD 0 0))) hV, "PPB_DIV", false⟩),
    -- line 101: plantingsPerBed -> 'plantingsPerBed * harvests'
    fun f => (runShape [.lit "plantingsPerBed"] f).map
      (fun _ => ⟨.mul ppbV hV, "PPB_DIRECT", false⟩),
    -- line 106: plantingsPerBed*((a)/(b)) -> 'plantingsPerBed * {a/b} * harvests'
    fun f => (runShape [.lit "plantingsPerBed*(", .num, .lit "/", .num, .lit ")"] f).map
      (fun qs => ⟨.mul (.mul ppbV (.num (qs.getD 0 0 / qs.getD 1 0))) hV, "PPB_MULT", false⟩),
    -- line 112: plantingsPerBed*((a)/(b))*(c)
    fun f => (runShape [.lit "plantingsPerBed*(", .num, .lit "/", .num, .lit ")*", .num] f).map
      (fun qs => ⟨.mul (.mul ppbV (.num (qs.getD 0 0 / qs.getD 1 0 * qs.getD 2 0))) hV,
        "PPB_MULT", false⟩),
    -- line 118: plantingsPerBed*(a)/(b)  (the group-2 'harvests' test is vacuous)
    fun f => (runShape [.lit "plantingsPerBed*", .num, .lit "/", .num] f).map
      (fun qs => ⟨.mul (.mul ppbV (.num (qs.getD 0 0 / qs.getD 1 0))) hV, "PPB_MULT", false⟩),
    -- line 124: plantingsPerBed/(a)/(b)/harvests
    fun f => (runShape [.lit "plantingsPerBed/", .num, .lit "/", .num, .lit "/harvests"] f).map
      (fun qs => ⟨.mul ppbV (.num (1 / (qs.getD 0 0 * qs.getD 1 0))), "PPB_DIV_DIV_H", true⟩),
    -- line 130: plantingsPerBed/(a)/(b)/(c)/harvests
    fun f => (runShape [.lit "plantingsPerBed/", .num, .lit "/", .num, .lit "/", .num,
        .lit "/harvests"] f).map
      (fun qs => ⟨.mul ppbV (.num (1 / (qs.getD 0 0 * qs.getD 1 0 * qs.getD 2 0))),
        "PPB_DIV_DIV_H", true⟩),
    -- line 136: plantingsPerBed/(a)/(b)/(c)
    fun f => (runShape [.lit "plantingsPerBed/", .num, .lit "/", .num, .lit "/", .num] f).map
      (fun qs => ⟨.mul (.mul ppbV (.num (1 / (qs.getD 0 0 * qs.getD 1 0 * qs.getD 2 0)))) hV,
        "PPB_DIV", false⟩),
    -- line 142: plantingsPerBed*(a)/(b)/harvests
    fun f => (runShape [.lit "plantingsPerBed*", .num, .lit "/", .num, .lit "/harvests"] f).map
      (fun qs => ⟨.mul ppbV (.num (qs.getD 0 0 / qs.getD 1 0)), "PPB_MULT_DIV_H", true⟩),
    -- line 148: plantingsPerBed/(a)*(b)/harvests
    fun f => (runShape [.lit "plantingsPerBed/", .num, .lit "*", .num, .lit "/harvests"] f).map
      (fun qs => ⟨.mul ppbV (.num (qs.getD 1 0 / qs.getD 0 0)), "PPB_MULT_DIV_H", true⟩),
    -- line 154: plantingsPerBed*(a)*(b)/harvests
    fun f => (runShape [.lit "plantingsPerBed*", .num, .lit "*", .num, .lit "/harvests"] f).map
      (fun qs => ⟨.mul ppbV (.num (qs.getD 0 0 * qs.getD 1 0)), "PPB_MULT_DIV_H", true⟩),
    -- line 160: plantingsPerBed*(a)*(b)*(c)/harvests
    fun f => (runShape [.lit "plantingsPerBed*", .num, .lit "*", .num, .lit "*", .num,
        .lit "/harvests"] f).map
      (fun qs => ⟨.mul ppbV (.num (qs.getD 0 0 * qs.getD 1 0 * qs.getD 2 0)),
        "PPB_MULT_DIV_H", true⟩),
    -- line 166: plantingsPerBed*(a)*(b)/(c)/harvests
    fun f => (runShape [.lit "plantingsPerBed*", .num, .lit "*", .num, .lit "/", .num,
        .lit "/harvests"] f).map
      (fun qs => ⟨.mul ppbV (.num (qs.getD 0 0 * qs.getD 1 0 / qs.getD 2 0)),
        "PPB_MULT_DIV_H", true⟩),
    -- line 172: plantingsPerBed/harvests*(k)
    fun f => (runShape [.lit "plantingsPerBed/harvests*", .num] f).map
      (fun qs => ⟨.mul ppbV (.num (qs.getD 0 0)), "PPB_MULT_DIV_H", true⟩),
    -- line 178: 1/harvests*plantingsPerBed
    fun f => (runShape [.lit "1/harvests*plantingsPerBed"] f).map
      (fun _ => ⟨ppbV, "PPB_DIV_H", true⟩),
    -- line 183: plantingsPerBed/(a)*(b)
    fun f => (runShape [.lit "plantingsPerBed/", .num, .lit "*", .num] f).map
      (fun qs => ⟨.mul (.mul ppbV (.num (qs.getD 1 0 / qs.getD 0 0))) hV, "PPB_MULT", false⟩),
    -- line 191: (k)*bedFeet/100/harvests -> '(bedFeet / 100) * {k}'
    fun f => (runShape [.num, .lit "*bedFeet/100/harvests"] f).map
      (fun qs => ⟨.mul (.div bfV (.num 100)) (.num (qs.getD 0 0)), "AREA_DIV_H", true⟩),
    -- line 197: (k)*bedFeet/100 -> '(bedFeet / 100) * {k} * harvests'
    fun f => (runShape [.num, .lit "*bedFeet/100"] f).map
      (fun qs => ⟨.mul (.mul (.div bfV (.num 100)) (.num (qs.getD 0 0))) hV, "AREA", false⟩),
    -- line 203: bedFeet/harvests -> 'bedFeet'
    fun f => (runShape [.lit "bedFeet/harvests"] f).map
      (fun _ => ⟨bfV, "BEDLENGTH_DIV_H", true⟩),
    -- line 208: bedFeet*(k)/harvests -> 'bedFeet * {k}'
    fun f => (runShape [.lit "bedFeet*", .num, .lit "/harvests"] f).map
      (fun qs => ⟨.mul bfV (.num (qs.getD 0 0)), "BEDLENGTH_DIV_H", true⟩),
    -- line 214: (a)*(b)*bedFeet/harvests -> 'bedFeet * {a*b}'
    fun f => (runShape [.num, .lit "*", .num, .lit "*bedFeet/harvests"] f).map
      (fun qs => ⟨.mul bfV (.num (qs.getD 0 0 * qs.getD 1 0)), "BEDLENGTH_DIV_H", true⟩),
    -- line 220: (a)*bedFeet/100/(b)*(c)*(d)/harvests -> '(bedFeet / 100) * {a/b*c*d}'
    fun f => (runShape [.num, .lit "*bedFeet/100/", .num, .lit "*", .num, .lit "*", .num,
        .lit "/harvests"] f).map
      (fun qs => ⟨.mul (.div bfV (.num 100))
        (.num (qs.getD 0 0 / qs.getD 1 0 * qs.getD 2 0 * qs.getD 3 0)), "AREA_DIV_H", true⟩),
    -- line 226: (k)*bedFeet/100/harvests (duplicate of line 191, unreachable)
    fun f => (runShape [.num, .lit "*bedFeet/100/harvests"] f).map
      (fun qs => ⟨.mul (.div bfV (.num 100)) (.num (qs.getD 0 0)), "AREA_DIV_H", true⟩),
    -- line 235: plantingsPerBed*(k)*daysBetweenHarvest/7
    fun f => (runShape [.lit "plantingsPerBed*", .num, .lit "*daysBetweenHarvest/7"] f).map
      (fun qs => ⟨.mul (.mul (.mul ppbV (.num (qs.getD 0 0))) (.div dbhV (.num 7))) hV,
        "PPB_WEEKLY_RATE", false⟩),
    -- line 241: plantingsPerBed*daysBetweenHarvest/7
    fun f => (runShape [.lit "plantingsPerBed*daysBetweenHarvest/7"] f).map
      (fun _ => ⟨.mul (.mul ppbV (.div dbhV (.num 7))) hV, "PPB_WEEKLY_RATE", false⟩),
    -- line 246: plantingsPerBed*(k)*(daysBetweenHarvest/7)
    fun f => (runShape [.lit "plantingsPerBed*", .num, .lit "*(daysBetweenHarvest/7)"] f).map
      (fun qs => ⟨.mul (.mul (.mul ppbV (.num (qs.getD 0 0))) (.div dbhV (.num 7))) hV,
        "PPB_WEEKLY_RATE", false⟩),
    -- line 252: plantingsPerBed*(k)*daysBetweenHarvest
    fun f => (runShape [.lit "plantingsPerBed*", .num, .lit "*daysBetweenHarvest"] f).map
      (fun qs => ⟨.mul (.mul (.mul ppbV (.num (qs.getD 0 0))) dbhV) hV,
        "PPB_DBH_DIRECT", false⟩),
    -- line 260: (a)*bedFeet/100*(harvests*daysBetweenHarvest)/(b)/harvests
    fun f => (runShape [.num, .lit "*bedFeet/100*(harvests*daysBetweenHarvest)/", .num,
        .lit "/harvests"] f).map
      (fun qs => ⟨.mul (.mul (.mul (.div bfV (.num 100)) (.num (qs.getD 0 0 / qs.getD 1 0)))
        dbhV) hV, "AREA_DBH_SCALED", false⟩),
    -- line 268: same shape with a trailing *(c)
    fun f => (runShape [.num, .lit "*bedFeet/100*(harvests*daysBetweenHarvest)/", .num,
        .lit "/harvests*", .num] f).map
      (fun qs => ⟨.mul (.mul (.mul (.div bfV (.num 100))
        (.num (qs.getD 0 0 * qs.getD 2 0 / qs.getD 1 0))) dbhV) hV, "AREA_DBH_SCALED", false⟩),
    -- line 278: 1/(k)*seeds/safetyFactor -> 'seeds * {(1/k)/1.1:.6f} * harvests'
    fun f => (runShape [.lit "1/", .num, .lit "*seeds/safetyFactor"] f).map
      (fun qs => ⟨.mul (.mul seedsV (.num (round6 ((1 / qs.getD 0 0) / (11 / 10))))) hV,
        "SEEDS_BASED", false⟩),
    -- line 287: ((fixed)+(harvests-1)*(rate)*plantingsPerBed)/harvests
    fun f => (runShape [.lit "(", .num, .lit "+(harvests-1)*", .num,
        .lit "*plantingsPerBed)/harvests"] f).map
      (fun qs => ⟨.add (.num (qs.getD 0 0)) (.mul (.mul (.sub hV (.num 1))
        (.num (qs.getD 1 0))) ppbV), "LETTUCE_COMPLEX", true⟩) ]

/-- The Formula Normalizer as applied by `parse_and_convert`
(`convert-yield-formulas.py` lines 45-63): `none` exactly on an empty string
or one not starting with `=`, otherwise the canonicalized character list. -/
def normalize (raw : String) : Option (List Char) :=
  match raw.data with
  | '=' :: _ => some (normalizeConv raw.data)
  | _ => none

/-- `parse_and_convert` of `convert-yield-formulas.py` (lines 32-294). -/
def parse_and_convert (raw : String) : Option FormulaConversion :=
  (normalize raw).bind (firstSome convBranches)

/-- Evaluate an emitted target formula under a variable environment: the
semantics of the restricted `eval` in `evaluate_formula`
(`convert-yield-formulas.py` lines 304-325); an unknown name (`NameError`)
or a zero divisor (`ZeroDivisionError`) is caught and yields `none`. -/
def evalExpr : Expr → (String → Option ℚ) → Option ℚ
  | .num q, _ => some q
  | .var n, ctx => ctx n
  | .add a b, ctx =>
    match evalExpr a ctx, evalExpr b ctx with
    | some x, some y => some (x + y)
    | _, _ => none
  | .sub a b, ctx =>
    match evalExpr a ctx, evalExpr b ctx with
    | some x, some y => some (x - y)
    | _, _ => none
  | .mul a b, ctx =>
    match evalExpr a ctx, evalExpr b ctx with
    | some x, some y => some (x * y)
    | _, _ => none
  | .div a b, ctx =>
    match evalExpr a ctx, evalExpr b ctx with
    | some x, some y => if y = 0 then none else some (x / y)
    | _, _ => none

/-- The restricted namespace built in `evaluate_formula` / `main`
(`convert-yield-formulas.py` lines 312-320 and 401-409). -/
def mkCtx (ppb bedFeet harvests dbh rows spacing seeds : ℚ) : String → Option ℚ := fun n =>
  if n = "plantingsPerBed" then some ppb
  else if n = "bedFeet" then some bedFeet
  else if n = "harvests" then some harvests
  else if n = "daysBetweenHarvest" then some dbh
  else if n = "rows" then some rows
  else if n = "spacing" then some spacing
  else if n = "seeds" then some seeds
  else none

def evaluate_formula (e : Expr) (ctx : String → Option ℚ) : Option ℚ := evalExpr e ctx

/-- Python truthiness of an optional numeric cell: `None` and `0` are falsy. -/
def truthy : Option ℚ → Bool
  | none => false
  | some x => decide (x ≠ 0)

/-- The numeric value of a truthy cell. -/
def oval (o : Option ℚ) : ℚ := o.getD 0

/-- The classification a row receives in `main` of
`migrate-yield-formulas.py`: the `empty`, `unmatched` and `matched` buckets,
plus the two kinds of entries in to the `errors` bucket (a numeric mismatch,
lines 368-377, and a caught exception, lines 391-398). -/
inductive MigResult where
  | empty
  | unmatched (formula : String)
  | mismatched (expected calculated error_pct : ℚ)
  | excepted (msg : String)
  | matched (validated_total : Option ℚ)
deriving DecidableEq, Repr

/-- The per-row logic of `main` in `migrate-yield-formulas.py`
(lines 317-411), for one row's cell values: the Units Per Harvest formula
(`""` for an empty cell), the `Spacing`, `Rows`, `Harvests` and
`Custom Yield Per Bed` (expected total) cells, and the already-defaulted
`dbh`, `seeds_per_bed` and `safety_factor` values.  `bed_length` is the
constant 50 of line 308. -/
def migrateRow (formula : String) (spacing rows harvests excel_total : Option ℚ)
    (dbh seeds sf : ℚ) : MigResult :=
  if formula = "" then .empty
  else
    match parse_uph_formula formula with
    | none => .unmatched formula
    | some model =>
      if truthy spacing && truthy rows && truthy harvests then
        match calculate_yield model spacing rows 50 (oval harvests) dbh seeds sf with
        | .error e => .excepted e
        | .ok t =>
          if truthy excel_total && decide (|t - oval excel_total| > 1 / 100) then
            let error_pct : ℚ :=
              if truthy excel_total then |t - oval excel_total| / oval excel_total * 100 else 0
            if error_pct > 1 then .mismatched (oval excel_total) t error_pct
            else .matched (some t)
          else .matched (some t)
      else .matched none

/-- The classification a row receives in `main` of
`convert-yield-formulas.py`: `empty`, `unmatched`, the `errors` bucket
(lines 417-428), or `converted` together with its `validated` flag
(`excel_total is not None`, line 439). -/
inductive ConvResult where
  | empty
  | unmatched (excel_formula : String)
  | mismatched (expected calculated error_pct : ℚ)
  | converted (yieldFormula : Expr) (validated : Bool)
deriving DecidableEq, Repr

/-- The per-row logic of `main` in `convert-yield-formulas.py`
(lines 354-440); `bed_length` is the constant 50 of line 345. -/
def convertRow (formula : String) (spacing rows harvests excel_total : Option ℚ)
    (dbh seeds : ℚ) : ConvResult :=
  if formula = "" then .empty
  else
    match parse_and_convert formula with
    | none => .unmatched formula
    | some conv =>
      if truthy spacing && truthy rows && truthy harvests then
        let ppb := calculate_ppb spacing rows 50
        let ctx := mkCtx ppb 50 (oval harvests) dbh (oval rows) (oval spacing) seeds
        match evaluate_formula conv.formula ctx, excel_total with
        | some t, some e =>
          let error_pct : ℚ := if e ≠ 0 then |t - e| / e * 100 else 0
          if error_pct > 1 then .mismatched e t error_pct
          else .converted conv.formula excel_total.isSome
        | _, _ => .converted conv.formula excel_total.isSome
      else .converted conv.formula excel_total.isSome

/-- The basis each pattern tag is paired with across the whole cascade. -/
def basisOf (p : String) : Option String :=
  if p = "PPB_MULT_DIV_H" ∨ p = "PPB_DIV_DIV_H" ∨ p = "PPB_MULT" ∨ p = "PPB_DIV"
      ∨ p = "PPB_DIRECT" ∨ p = "PPB_WEEKLY_RATE" ∨ p = "PPB_DBH_DIRECT"
      ∨ p = "SEEDS_BASED" ∨ p = "LETTUCE_COMPLEX" then some "per-plant"
  else if p = "AREA_DIV_H" ∨ p = "AREA" ∨ p = "BEDLENGTH_DIV_H"
      ∨ p = "AREA_DBH_SCALED" then some "per-100ft"
  else none

/-- The seven evaluation branches of `calculate_yield` (lines 260-285). -/
inductive EvalBranch where
  | weekly
  | dbhDirect
  | areaDbh
  | seedsBased
  | lettuce
  | perPlant
  | perArea
deriving DecidableEq, Repr

/-- Which branch of `calculate_yield` a model is dispatched to: the five
pattern-tag tests in order, then the basis test. -/
def branchOf (m : YieldModel) : EvalBranch :=
  if m.pattern = "PPB_WEEKLY_RATE" then .weekly
  else if m.pattern = "PPB_DBH_DIRECT" then .dbhDirect
  else if m.pattern = "AREA_DBH_SCALED" then .areaDbh
  else if m.pattern = "SEEDS_BASED" then .seedsBased
  else if m.pattern = "LETTUCE_COMPLEX" then .lettuce
  else if m.basis = "per-plant" then .perPlant
  else .perArea

/-- The invariant each successful match satisfies: `extra` is populated
exactly for the lettuce pattern, and the pattern tag determines the basis. -/
def MigInv (m : YieldModel) : Prop :=
  (m.extra.isSome = true ↔ m.pattern = "LETTUCE_COMPLEX")
  ∧ basisOf m.pattern = some m.basis

/-- The raw shallots formula (row data of the `Crop Chart` sheet). -/
def seedsRaw : String := "=1/16*Seeds Per Bed/Safety Factor"

/-- The model `parse_uph_formula` produces for `seedsRaw`. -/
def mSeeds : YieldModel := ⟨"per-plant", 1 / 16, true, "SEEDS_BASED", none⟩

/-- The raw lettuce formula (row data of the `Crop Chart` sheet). -/
def lettuceRaw : String := "=(0.5+(Harvests-1)*0.25*Plantings Per Bed)/Harvests"

/-- The model `parse_uph_formula` produces for `lettuceRaw`. -/
def mLettuce : YieldModel := ⟨"per-plant", 1 / 4, false, "LETTUCE_COMPLEX", some (1 / 2)⟩

/-- The target formula `parse_and_convert` emits for `seedsRaw`:
`seeds * 0.056818 * harvests` (the rate `(1/16)/1.1` printed with `%.6f`). -/
def convSeedsExpr : Expr := .mul (.mul seedsV (.num (28409 / 500000))) hV

lemma migrateRow_unmatched (formula : String) (spacing rows harvests excel : Option ℚ)
    (dbh seeds sf : ℚ) (hne : formula ≠ "") (hp : parse_uph_formula formula = none) :
    migrateRow formula spacing rows harvests excel dbh seeds sf = .unmatched formula := by
  simp only [migrateRow, if_neg hne, hp]

lemma migrateRow_skip_validation (formula : String)
    (spacing rows harvests excel : Option ℚ) (dbh seeds sf : ℚ) (model : YieldModel)
    (hne : formula ≠ "") (hp : parse_uph_formula formula = some model)
    (htr : (truthy spacing && truthy rows && truthy harvests) = false) :
    migrateRow formula spacing rows harvests excel dbh seeds sf = .matched none := by
  simp only [migrateRow, if_neg hne, hp, htr, Bool.false_eq_true, if_false]

lemma migrateRow_excel_falsy (formula : String) (spacing rows harvests excel : Option ℚ)
    (dbh seeds sf t : ℚ) (model : YieldModel)
    (hne : formula ≠ "") (hp : parse_uph_formula formula = some model)
    (htr : (truthy spacing && truthy rows && truthy harvests) = true)
    (hy : calculate_yield model spacing rows 50 (oval harvests) dbh seeds sf = .ok t)
    (hex : truthy excel = false) :
    migrateRow formula spacing rows harvests excel dbh seeds sf = .matched (some t) := by
  simp only [migrateRow, if_neg hne, hp, htr, if_true, hy, hex, Bool.false_and,
    Bool.false_eq_true, if_false]

lemma oval_some (x : ℚ) : oval (some x) = x := rfl

lemma migrateRow_validated (formula : String) (spacing rows harvests : Option ℚ)
    (dbh seeds sf t e : ℚ) (model : YieldModel)
    (hne : formula ≠ "") (hp : parse_uph_formula formula = some model)
    (htr : (truthy spacing && truthy rows && truthy harvests) = true)
    (hy : calculate_yield model spacing rows 50 (oval harvests) dbh seeds sf = .ok t)
    (henz : e ≠ 0) :
    migrateRow formula spacing rows harvests (some e) dbh seeds sf =
      if |t - e| > 1 / 100 ∧ |t - e| / e * 100 > 1
      then .mismatched e t (|t - e| / e * 100)
      else .matched (some t) := by
  have hex : truthy (some e) = true := by simp [truthy, henz]
  simp only [migrateRow, if_neg hne, hp, htr, if_true, hy, hex, Bool.true_and, oval_some,
    decide_eq_true_eq]
  by_cases habs : |t - e| > 1 / 100
  · by_cases herr : |t - e| / e * 100 > 1
    · simp [habs, herr]
    · simp [habs, herr]
  · have habs2 : ¬((100 : ℚ)⁻¹ < |t - e|) := by rw [one_div] at habs; exact habs
    simp [habs, habs2]

lemma migrateRow_excepted (formula : String) (spacing rows harvests excel : Option ℚ)
    (dbh seeds sf : ℚ) (model : YieldModel) (msg : String)
    (hne : formula ≠ "") (hp : parse_uph_formula formula = some model)
    (htr : (truthy spacing && truthy rows && truthy harvests) = true)
    (hy : calculate_yield model spacing rows 50 (oval harvests) dbh seeds sf = .error msg) :
    migrateRow formula spacing rows harvests excel dbh seeds sf = .excepted msg := by
  simp only [migrateRow, if_neg hne, hp, htr, if_true, hy]

lemma convertRow_unmatched (formula : String) (spacing rows harvests excel : Option ℚ)
    (dbh seeds : ℚ) (hne : formula ≠ "") (hp : parse_and_convert formula = none) :
    convertRow formula spacing rows harvests excel dbh seeds = .unmatched formula := by
  simp only [convertRow, if_neg hne, hp]

lemma convertRow_skip_validation (formula : String)
    (spacing rows harvests excel : Option ℚ) (dbh seeds : ℚ) (conv : FormulaConversion)
    (hne : formula ≠ "") (hp : parse_and_convert formula = some conv)
    (htr : (truthy spacing && truthy rows && truthy harvests) = false) :
    convertRow formula spacing rows harvests excel dbh seeds =
      .converted conv.formula excel.isSome := by
  simp only [convertRow, if_neg hne, hp, htr, Bool.false_eq_true, if_false]

lemma convertRow_validated (formula : String) (spacing rows harvests : Option ℚ)
    (dbh seeds u e : ℚ) (conv : FormulaConversion)
    (hne : formula ≠ "") (hp : parse_and_convert formula = some conv)
    (htr : (truthy spacing && truthy rows && truthy harvests) = true)
    (hu : evaluate_formula conv.formula
      (mkCtx (calculate_ppb spacing rows 50) 50 (oval harvests) dbh (oval rows)
        (oval spacing) seeds) = some u) :
    convertRow formula spacing rows harvests (some e) dbh seeds =
      if (if e ≠ 0 then |u - e| / e * 100 else 0) > 1
      then .mismatched e u (if e ≠ 0 then |u - e| / e * 100 else 0)
      else .converted conv.formula true := by
  simp only [convertRow, if_neg hne, hp, htr, if_true, hu, Option.isSome_some]

lemma convertRow_no_excel (formula : String) (spacing rows harvests : Option ℚ)
    (dbh seeds u : ℚ) (conv : FormulaConversion)
    (hne : formula ≠ "") (hp : parse_and_convert formula = some conv)
    (htr : (truthy spacing && truthy rows && truthy harvests) = true)
    (hu : evaluate_formula conv.formula
      (mkCtx (calculate_ppb spacing rows 50) 50 (oval harvests) dbh (oval rows)
        (oval spacing) seeds) = some u) :
    convertRow formula spacing rows harvests none dbh seeds =
      .converted conv.formula false := by
  simp only [convertRow, if_neg hne, hp, htr, if_true, hu, Option.isSome_none]

lemma firstSome_inv {α β : Type} (P : β → Prop) :
    ∀ (fs : List (α → Option β)) (a : α) (b : β),
      (∀ g, g ∈ fs → ∀ x y, g x = some y → P y) →
      firstSome fs a = some b → P b := by
  intro fs
  induction fs with
  | nil => intro a b _ h; simp [firstSome] at h
  | cons f fs ih =>
    intro a b hmem h
    unfold firstSome at h
    cases hf : f a with
    | some c =>
      rw [hf] at h
      injection h with hcb
      subst hcb
      exact hmem f (List.mem_cons_self f fs) a c hf
    | none =>
      rw [hf] at h
      exact ih a b (fun g hg => hmem g (List.mem_cons_of_mem f hg)) h

lemma map_shape_inv (P : YieldModel → Prop) (ts : List Tok) (mk : List ℚ → YieldModel)
    (hP : ∀ qs, P (mk qs)) :
    ∀ (x : List Char) (y : YieldModel), (runShape ts x).map mk = some y → P y := by
  intro x y h
  rcases Option.map_eq_some'.mp h with ⟨qs, _, rfl⟩
  exact hP qs

lemma migBranches_inv : ∀ g, g ∈ migBranches → ∀ x y, g x = some y → MigInv y := by
  intro g hg
  simp only [migBranches, List.mem_cons, List.not_mem_nil, or_false] at hg
  rcases hg with rfl | rfl | rfl | rfl | rfl | rfl | rfl | rfl | rfl | rfl | rfl | rfl | rfl |
    rfl | rfl | rfl | rfl | rfl | rfl | rfl | rfl | rfl | rfl | rfl | rfl | rfl | rfl | rfl |
    rfl | rfl | rfl | rfl | rfl | rfl <;>
    exact map_shape_inv MigInv _ _ (fun qs => by constructor <;> simp [basisOf, MigInv])

/-- Every successful `parse_uph_formula` satisfies the model invariant. -/
lemma parse_uph_inv (s : String) (m : YieldModel)
    (h : parse_uph_formula s = some m) : MigInv m := by
  unfold parse_uph_formula at h
  split at h
  · exact firstSome_inv MigInv migBranches _ m migBranches_inv h
  · exact absurd h (by simp)

lemma branchOf_congr (m n : YieldModel) (hp : m.pattern = n.pattern)
    (hb : m.basis = n.basis) : branchOf m = branchOf n := by
  simp only [branchOf, hp, hb]

/-- C4: the raw formula `=Plantings Per Bed*3/Harvests` (the source column
name of the spec's canonical `plantingsPerBed`) is matched as
`{PPB_MULT_DIV_H, rate 3, harvestMultiplies false}`; with spacing 6, rows 4,
bedLength 50, harvests 5 the plantings per bed are 400 and the total is
`400 * 3 = 1200`; and for every model with `harvestMultiplies = false` the
evaluator returns the base result without multiplying by harvests again. -/
theorem c4_div_harvest_exactness :
    parse_uph_formula "=Plantings Per Bed*3/Harvests" =
      some ⟨"per-plant", 3, false, "PPB_MULT_DIV_H", none⟩
    ∧ calculate_ppb (some 6) (some 4) 50 = 400
    ∧ calculate_yield ⟨"per-plant", 3, false, "PPB_MULT_DIV_H", none⟩
        (some 6) (some 4) 50 5 7 0 1 = .ok 1200
    ∧ ∀ (model : YieldModel) (spacing rows : Option ℚ) (bl h dbh seeds sf : ℚ),
        model.harvest_multiplies = false →
        calculate_yield model spacing rows bl h dbh seeds sf =
          calc_base_yield model spacing rows bl h dbh seeds sf := by
  refine ⟨by decide, by norm_num [calculate_ppb], ?_, ?_⟩
  · norm_num +decide [calculate_yield, calc_yield_ppb, calc_base_ppb, calculate_ppb, cdiv,
      emap]
  · intro model spacing rows bl h dbh seeds sf hm
    unfold calculate_yield calc_yield_ppb calc_base_yield
    cases hb : calc_base_ppb model (calculate_ppb spacing rows bl) bl h dbh seeds sf with
    | error e => simp [emap, hb]
    | ok b => simp [emap, hb, hm]

/-- Witness for C4 at a concrete non-multiplying model. -/
theorem c4_div_harvest_exactness_witness :
    mLettuce.harvest_multiplies = false
    ∧ calculate_yield mLettuce (some 6) (some 4) 50 5 7 0 1 =
        calc_base_yield mLettuce (some 6) (some 4) 50 5 7 0 1 :=
  ⟨rfl, c4_div_harvest_exactness.2.2.2 mLettuce (some 6) (some 4) 50 5 7 0 1 rfl⟩

/-- C5: the raw lettuce formula is matched as `{LETTUCE_COMPLEX, rate 0.25,
extra 0.5, harvestMultiplies false}`, and with plantings per bed 400 (from
spacing 6, rows 4, bedLength 50) and harvests 5 the total is
`0.5 + 4*0.25*400 = 400.5`, i.e. `extra + (harvests-1)*rate*plantingsPerBed`. -/
theorem c5_lettuce_complex :
    parse_uph_formula lettuceRaw = some mLettuce
    ∧ calculate_ppb (some 6) (some 4) 50 = 400
    ∧ calculate_yield mLettuce (some 6) (some 4) 50 5 7 0 1 = .ok (801 / 2)
    ∧ (801 / 2 : ℚ) = 1 / 2 + (5 - 1) * (1 / 4) * 400 := by
  refine ⟨by decide, by norm_num [calculate_ppb], ?_, by norm_num⟩
  norm_num +decide [mLettuce, calculate_yield, calc_yield_ppb, calc_base_ppb, calculate_ppb,
    cdiv, emap]

/-- C6: `plantingsPerBed` is `(12 / spacing) * rows * bedLength` when both
spacing and rows are positive, 0 when either is missing, zero or negative;
and `calculate_yield` consumes spacing and rows only through this derived
quantity, which is shared by the whole dispatch. -/
theorem c6_ppb_formula_shared :
    (∀ (s r bl : ℚ), 0 < s → 0 < r →
      calculate_ppb (some s) (some r) bl = 12 / s * r * bl)
    ∧ (∀ (spacing rows : Option ℚ) (bl : ℚ),
        (∀ x, spacing = some x → x ≤ 0) ∨ (∀ x, rows = some x → x ≤ 0) →
        calculate_ppb spacing rows bl = 0)
    ∧ (∀ (model : YieldModel) (spacing rows : Option ℚ) (bl h dbh seeds sf : ℚ),
        calculate_yield model spacing rows bl h dbh seeds sf =
          calc_yield_ppb model (calculate_ppb spacing rows bl) bl h dbh seeds sf) := by
  refine ⟨?_, ?_, ?_⟩
  · intro s r bl hs hr
    have hcond : ¬(s ≤ 0 ∨ r ≤ 0) := by push_neg; exact ⟨hs, hr⟩
    simp [calculate_ppb, hcond]
  · intro spacing rows bl hcond
    cases spacing with
    | none => rfl
    | some s =>
      cases rows with
      | none => rfl
      | some r =>
        rcases hcond with hle | hle
        · simp [calculate_ppb, hle s rfl]
        · simp [calculate_ppb, hle r rfl]
  · intro model spacing rows bl h dbh seeds sf
    rfl

/-- Witness for C6 at concrete inputs. -/
theorem c6_ppb_formula_shared_witness :
    calculate_ppb (some 6) (some 4) 50 = 12 / 6 * 4 * 50
    ∧ calculate_ppb (some 0) (some 4) 50 = 0
    ∧ calculate_yield mLettuce (some 6) (some 4) 50 5 7 0 1 =
        calc_yield_ppb mLettuce (calculate_ppb (some 6) (some 4) 50) 50 5 7 0 1 := by
  refine ⟨c6_ppb_formula_shared.1 6 4 50 (by norm_num) (by norm_num),
    c6_ppb_formula_shared.2.1 (some 0) (some 4) 50 (Or.inl ?_),
    c6_ppb_formula_shared.2.2 mLettuce (some 6) (some 4) 50 5 7 0 1⟩
  intro x hx
  injection hx with hx
  subst hx
  exact le_refl 0

/-- C9: every successful match populates `basis`, `rate`,
`harvestMultiplies` and `pattern` (they are non-optional fields of
`YieldModel`), populates `extra` exactly when the pattern is
LETTUCE_COMPLEX, and the pattern tag alone determines the evaluation branch:
any two matched models with the same pattern land in the same branch of
`calculate_yield`. -/
theorem c9_model_invariants :
    ∀ (s : String) (m : YieldModel), parse_uph_formula s = some m →
      (m.extra.isSome = true ↔ m.pattern = "LETTUCE_COMPLEX")
      ∧ basisOf m.pattern = some m.basis
      ∧ ∀ (s2 : String) (m2 : YieldModel), parse_uph_formula s2 = some m2 →
          m2.pattern = m.pattern → branchOf m2 = branchOf m := by
  intro s m h
  obtain ⟨h1, h2⟩ := parse_uph_inv s m h
  refine ⟨h1, h2, ?_⟩
  intro s2 m2 h2p hpat
  obtain ⟨_, hb2⟩ := parse_uph_inv s2 m2 h2p
  rw [hpat, h2] at hb2
  exact branchOf_congr m2 m hpat (Option.some.inj hb2).symm

/-- Witness for C9 at the concrete lettuce row. -/
theorem c9_model_invariants_witness :
    (mLettuce.extra.isSome = true ↔ mLettuce.pattern = "LETTUCE_COMPLEX")
    ∧ basisOf mLettuce.pattern = some mLettuce.basis
    ∧ branchOf mLettuce = branchOf mLettuce := by
  have h := c9_model_invariants lettuceRaw mLettuce (by decide)
  exact ⟨h.1, h.2.1, h.2.2 lettuceRaw mLettuce (by decide) rfl⟩

/-- C7: normalization returns null exactly on an empty raw string or one not
beginning with `=`; and whenever the matcher fires on no template, both
harnesses classify the row `Unmatched`, preserving the original raw text
(the classifiers are total functions, so no exception can escape). -/
theorem c7_unmatched_passthrough :
    (∀ raw : String, normalize raw = none ↔
      (raw.data = [] ∨ raw.data.head? ≠ some '='))
    ∧ (∀ (raw : String) (expr : List Char), normalize raw = some expr →
        firstSome convBranches expr = none →
        ∀ (spacing rows harvests excel : Option ℚ) (dbh seeds : ℚ),
          convertRow raw spacing rows harvests excel dbh seeds = .unmatched raw)
    ∧ (∀ raw : String, raw ≠ "" → parse_uph_formula raw = none →
        ∀ (spacing rows harvests excel : Option ℚ) (dbh seeds sf : ℚ),
          migrateRow raw spacing rows harvests excel dbh seeds sf = .unmatched raw) := by
  refine ⟨?_, ?_, ?_⟩
  · intro raw
    unfold normalize
    cases hd : raw.data with
    | nil => simp
    | cons c cs =>
      by_cases hc : c = '='
      · subst hc; simp
      · simp [hc]
  · intro raw expr hnorm hmatch spacing rows harvests excel dbh seeds
    have hne : raw ≠ "" := by
      intro hraw
      subst hraw
      exact absurd hnorm (by simp [normalize])
    have hpc : parse_and_convert raw = none := by
      simp [parse_and_convert, hnorm, hmatch]
    exact convertRow_unmatched raw spacing rows harvests excel dbh seeds hne hpc
  · intro raw hne hp spacing rows harvests excel dbh seeds sf
    exact migrateRow_unmatched raw spacing rows harvests excel dbh seeds sf hne hp

/-- Witness for C7 at an arbitrary nested conditional formula. -/
theorem c7_unmatched_passthrough_witness :
    normalize "" = none
    ∧ convertRow "=IF(Harvests>2,1,0)" (some 6) (some 4) (some 5) (some 100) 7 0 =
        .unmatched "=IF(Harvests>2,1,0)"
    ∧ migrateRow "=IF(Harvests>2,1,0)" (some 6) (some 4) (some 5) (some 100) 7 0 1 =
        .unmatched "=IF(Harvests>2,1,0)" := by
  refine ⟨(c7_unmatched_passthrough.1 "").mpr (Or.inl rfl), ?_, ?_⟩
  · exact c7_unmatched_passthrough.2.1 "=IF(Harvests>2,1,0)"
      (normalizeConv "=IF(Harvests>2,1,0)".data) rfl (by decide)
      (some 6) (some 4) (some 5) (some 100) 7 0
  · exact c7_unmatched_passthrough.2.2 "=IF(Harvests>2,1,0)" (by decide)
      (by decide) (some 6) (some 4) (some 5) (some 100) 7 0 1

/-- C2 counterexample: at `safetyFactor = 0` under the SEEDS_BASED model
(and at `harvests = 0` under LETTUCE_COMPLEX) the evaluator does not raise a
division-by-zero failure — it returns the number 0 (`Except.ok 0`). -/
theorem c2_no_divide_by_zero_counterexample :
    parse_uph_formula seedsRaw = some mSeeds
    ∧ calculate_yield mSeeds (some 6) (some 4) 50 5 7 16 0 = .ok 0
    ∧ parse_uph_formula lettuceRaw = some mLettuce
    ∧ calculate_yield mLettuce (some 6) (some 4) 50 0 7 0 1 = .ok 0 := by
  refine ⟨by decide, ?_, by decide, ?_⟩
  · norm_num +decide [mSeeds, calculate_yield, calc_yield_ppb, calc_base_ppb, calculate_ppb,
      cdiv, emap]
  · norm_num +decide [mLettuce, calculate_yield, calc_yield_ppb, calc_base_ppb, calculate_ppb,
      cdiv, emap]

/-- C2 amended: the evaluator guards both divisions itself — under any
SEEDS_BASED model a zero safety factor yields `.ok 0`, and under any
LETTUCE_COMPLEX model a zero harvest count yields `.ok 0`; no
division-by-zero failure is raised and a number is returned. -/
theorem c2_no_divide_by_zero_amended :
    ∀ (model : YieldModel) (spacing rows : Option ℚ) (bl h dbh seeds sf : ℚ),
      (model.pattern = "SEEDS_BASED" → sf = 0 →
        calculate_yield model spacing rows bl h dbh seeds sf = .ok 0)
      ∧ (model.pattern = "LETTUCE_COMPLEX" → h = 0 →
        calculate_yield model spacing rows bl h dbh seeds sf = .ok 0) := by
  intro model spacing rows bl h dbh seeds sf
  constructor
  · intro hpat hsf
    subst hsf
    simp +decide [calculate_yield, calc_yield_ppb, calc_base_ppb, hpat, emap, ite_self]
  · intro hpat hh
    subst hh
    simp +decide [calculate_yield, calc_yield_ppb, calc_base_ppb, hpat, emap, ite_self]

/-- Witness for C2 at the concrete shallots and lettuce models. -/
theorem c2_no_divide_by_zero_witness :
    calculate_yield mSeeds (some 1) (some 1) 50 5 7 16 0 = .ok 0
    ∧ calculate_yield mLettuce (some 1) (some 1) 50 0 7 0 1 = .ok 0 :=
  ⟨(c2_no_divide_by_zero_amended mSeeds (some 1) (some 1) 50 5 7 16 0).1 rfl rfl,
   (c2_no_divide_by_zero_amended mLettuce (some 1) (some 1) 50 0 7 0 1).2 rfl rfl⟩

lemma parse_uph_formula_empty : parse_uph_formula "" = none := rfl

lemma parse_and_convert_empty : parse_and_convert "" = none := rfl

lemma ne_empty_of_parse_uph {raw : String} {m : YieldModel}
    (h : parse_uph_formula raw = some m) : raw ≠ "" := by
  intro hraw
  rw [hraw, parse_uph_formula_empty] at h
  exact Option.noConfusion h

lemma ne_empty_of_parse_conv {raw : String} {c : FormulaConversion}
    (h : parse_and_convert raw = some c) : raw ≠ "" := by
  intro hraw
  rw [hraw, parse_and_convert_empty] at h
  exact Option.noConfusion h

/-- C1 counterexample: a row with expected total 0 and computed total
6000 ≠ 0 is classified Matched (migrate) / converted-and-validated
(convert), not Mismatched with an infinite error. -/
theorem c1_zero_expected_counterexample :
    migrateRow "=Plantings Per Bed*3" (some 6) (some 4) (some 5) (some 0) 7 0 1 =
      .matched (some 6000)
    ∧ convertRow "=Plantings Per Bed*3" (some 6) (some 4) (some 5) (some 0) 7 0 =
      .converted (.mul (.mul ppbV (.num 3)) hV) true := by
  constructor
  · exact migrateRow_excel_falsy "=Plantings Per Bed*3" (some 6) (some 4) (some 5) (some 0)
      7 0 1 6000 ⟨"per-plant", 3, true, "PPB_MULT", none⟩ (by decide)
      (by decide) (by decide)
      (by norm_num +decide [oval, calculate_yield, calc_yield_ppb, calc_base_ppb,
        calculate_ppb, cdiv, emap]) (by decide)
  · have h := convertRow_validated "=Plantings Per Bed*3" (some 6) (some 4) (some 5) 7 0
      6000 0 ⟨.mul (.mul ppbV (.num 3)) hV, "PPB_MULT", false⟩ (by decide)
      (by decide) (by decide)
      (by norm_num +decide [oval, evaluate_formula, evalExpr, mkCtx, ppbV, hV, calculate_ppb])
    rw [h]
    norm_num

/-- C1 amended: with expected total 0 the zero-expected guard bypasses the
mismatch check entirely — a pattern-matched, evaluated row is classified
Matched (migrate) / converted with `validated = true` (convert) whatever its
computed total is, zero or not; no row with expected total 0 is ever
Mismatched, and no infinite-error sentinel exists. -/
theorem c1_zero_expected_amended :
    ∀ (formula : String) (model : YieldModel) (conv : FormulaConversion)
      (spacing rows harvests : Option ℚ) (dbh seeds sf t u : ℚ),
      (truthy spacing && truthy rows && truthy harvests) = true →
      (parse_uph_formula formula = some model →
        calculate_yield model spacing rows 50 (oval harvests) dbh seeds sf = .ok t →
        migrateRow formula spacing rows harvests (some 0) dbh seeds sf = .matched (some t))
      ∧ (parse_and_convert formula = some conv →
        evaluate_formula conv.formula
          (mkCtx (calculate_ppb spacing rows 50) 50 (oval harvests) dbh (oval rows)
            (oval spacing) seeds) = some u →
        convertRow formula spacing rows harvests (some 0) dbh seeds =
          .converted conv.formula true) := by
  intro formula model conv spacing rows harvests dbh seeds sf t u htr
  constructor
  · intro hp hy
    exact migrateRow_excel_falsy formula spacing rows harvests (some 0) dbh seeds sf t model
      (ne_empty_of_parse_uph hp) hp htr hy (by decide)
  · intro hpc hu
    have h := convertRow_validated formula spacing rows harvests dbh seeds u 0 conv
      (ne_empty_of_parse_conv hpc) hpc htr hu
    rw [h]
    norm_num

/-- Witness for C1 applied at the div-harvest row with expected total 0. -/
theorem c1_zero_expected_witness :
    migrateRow "=Plantings Per Bed*3/Harvests" (some 6) (some 4) (some 5) (some 0) 7 0 1 =
      .matched (some 1200)
    ∧ convertRow "=Plantings Per Bed*3/Harvests" (some 6) (some 4) (some 5) (some 0) 7 0 =
      .converted (.mul ppbV (.num 3)) true := by
  have h := c1_zero_expected_amended "=Plantings Per Bed*3/Harvests"
    ⟨"per-plant", 3, false, "PPB_MULT_DIV_H", none⟩ ⟨.mul ppbV (.num 3), "PPB_MULT_DIV_H", true⟩
    (some 6) (some 4) (some 5) 7 0 1 1200 1200 (by decide)
  exact ⟨h.1 (by decide)
      (by norm_num +decide [oval, calculate_yield, calc_yield_ppb, calc_base_ppb,
        calculate_ppb, cdiv, emap]),
    h.2 (by decide)
      (by norm_num +decide [oval, evaluate_formula, evalExpr, mkCtx, ppbV, calculate_ppb])⟩

/-- C3 counterexample: in migrate a row with relative error 5% (well above
the 1% tolerance) is still classified Matched, because the absolute
difference 0.005 does not exceed the additional 0.01 guard — so the
classification is not decided by `errorPct > 1` alone. -/
theorem c3_tolerance_counterexample :
    migrateRow "=Plantings Per Bed*0.0002625/Harvests" (some 6) (some 4) (some 5)
      (some (1 / 10)) 7 0 1 = .matched (some (21 / 200))
    ∧ |(21 / 200 : ℚ) - 1 / 10| / (1 / 10) * 100 > 1 := by
  have habs : |(21 / 200 : ℚ) - 1 / 10| = 1 / 200 := by
    rw [show (21 / 200 : ℚ) - 1 / 10 = 1 / 200 by norm_num]
    exact abs_of_pos (by norm_num)
  constructor
  · have h := migrateRow_validated "=Plantings Per Bed*0.0002625/Harvests" (some 6) (some 4)
      (some 5) 7 0 1 (21 / 200) (1 / 10)
      ⟨"per-plant", 21 / 80000, false, "PPB_MULT_DIV_H", none⟩ (by decide)
      (by decide) (by decide)
      (by norm_num +decide [oval, calculate_yield, calc_yield_ppb, calc_base_ppb,
        calculate_ppb, cdiv, emap]) (by norm_num)
    rw [h, habs]
    norm_num
  · rw [habs]
    norm_num

/-- C3 amended: in convert a validated row is Mismatched exactly when
`errorPct > 1.0` (strictly — 1.00% is Matched, 1.01% is Mismatched), but in
migrate two further conditions enter the decision: the row is Mismatched
exactly when the expected total is nonzero, `|computed − expected| > 0.01`,
and `errorPct > 1.0`. -/
theorem c3_tolerance_amended :
    ∀ (formula : String) (model : YieldModel) (spacing rows harvests : Option ℚ)
      (dbh seeds sf t e : ℚ),
      parse_uph_formula formula = some model →
      (truthy spacing && truthy rows && truthy harvests) = true →
      calculate_yield model spacing rows 50 (oval harvests) dbh seeds sf = .ok t →
      e ≠ 0 →
      (migrateRow formula spacing rows harvests (some e) dbh seeds sf =
        if |t - e| > 1 / 100 ∧ |t - e| / e * 100 > 1
        then .mismatched e t (|t - e| / e * 100)
        else .matched (some t))
      ∧ ∀ (conv : FormulaConversion) (u : ℚ),
          parse_and_convert formula = some conv →
          evaluate_formula conv.formula
            (mkCtx (calculate_ppb spacing rows 50) 50 (oval harvests) dbh (oval rows)
              (oval spacing) seeds) = some u →
          convertRow formula spacing rows harvests (some e) dbh seeds =
            if |u - e| / e * 100 > 1
            then .mismatched e u (|u - e| / e * 100)
            else .converted conv.formula true := by
  intro formula model spacing rows harvests dbh seeds sf t e hp htr hy henz
  constructor
  · exact migrateRow_validated formula spacing rows harvests dbh seeds sf t e model
      (ne_empty_of_parse_uph hp) hp htr hy henz
  · intro conv u hpc hu
    have h := convertRow_validated formula spacing rows harvests dbh seeds u e conv
      (ne_empty_of_parse_conv hpc) hpc htr hu
    rw [h]
    simp [henz]

/-- Witness for C3 at the exact tolerance boundary: with expected 10, a
computed 10.1 (error exactly 1.00%) is Matched and a computed 10.101
(error 1.01%) is Mismatched. -/
theorem c3_tolerance_witness :
    migrateRow "=Plantings Per Bed*0.02525/Harvests" (some 6) (some 4) (some 5)
      (some 10) 7 0 1 = .matched (some (101 / 10))
    ∧ migrateRow "=Plantings Per Bed*0.0252525/Harvests" (some 6) (some 4) (some 5)
      (some 10) 7 0 1 = .mismatched 10 (10101 / 1000) (101 / 100) := by
  constructor
  · have habs : |(101 / 10 : ℚ) - 10| = 1 / 10 := by
      rw [show (101 / 10 : ℚ) - 10 = 1 / 10 by norm_num]
      exact abs_of_pos (by norm_num)
    have h := (c3_tolerance_amended "=Plantings Per Bed*0.02525/Harvests"
      ⟨"per-plant", 101 / 4000, false, "PPB_MULT_DIV_H", none⟩ (some 6) (some 4) (some 5)
      7 0 1 (101 / 10) 10 (by decide) (by decide)
      (by norm_num +decide [oval, calculate_yield, calc_yield_ppb, calc_base_ppb,
        calculate_ppb, cdiv, emap]) (by norm_num)).1
    rw [h, habs]
    norm_num
  · have habs : |(10101 / 1000 : ℚ) - 10| = 101 / 1000 := by
      rw [show (10101 / 1000 : ℚ) - 10 = 101 / 1000 by norm_num]
      exact abs_of_pos (by norm_num)
    have h := (c3_tolerance_amended "=Plantings Per Bed*0.0252525/Harvests"
      ⟨"per-plant", 252525 / 10000000, false, "PPB_MULT_DIV_H", none⟩ (some 6) (some 4)
      (some 5) 7 0 1 (10101 / 1000) 10 (by decide) (by decide)
      (by norm_num +decide [oval, calculate_yield, calc_yield_ppb, calc_base_ppb,
        calculate_ppb, cdiv, emap]) (by norm_num)).1
    rw [h, habs]
    norm_num

/-- C10: a pattern-matched row whose spacing, rows or harvests cell is zero
or missing is recorded as a success without any evaluation or comparison:
migrate appends it to `matched` with `validated_total = None`, and convert
appends it to `converted` untouched, whatever the expected total was. -/
theorem c10_unvalidated_success :
    ∀ (formula : String) (model : YieldModel) (spacing rows harvests excel : Option ℚ)
      (dbh seeds sf : ℚ),
      parse_uph_formula formula = some model →
      (truthy spacing && truthy rows && truthy harvests) = false →
      migrateRow formula spacing rows harvests excel dbh seeds sf = .matched none
      ∧ ∀ conv : FormulaConversion, parse_and_convert formula = some conv →
          convertRow formula spacing rows harvests excel dbh seeds =
            .converted conv.formula excel.isSome := by
  intro formula model spacing rows harvests excel dbh seeds sf hp htr
  refine ⟨migrateRow_skip_validation formula spacing rows harvests excel dbh seeds sf model
    (ne_empty_of_parse_uph hp) hp htr, ?_⟩
  intro conv hpc
  exact convertRow_skip_validation formula spacing rows harvests excel dbh seeds conv
    (ne_empty_of_parse_conv hpc) hpc htr

/-- Witness for C10 at a zero-spacing row with an expected total present. -/
theorem c10_unvalidated_success_witness :
    migrateRow "=Plantings Per Bed*3" (some 0) (some 4) (some 5) (some 123) 7 0 1 =
      .matched none
    ∧ convertRow "=Plantings Per Bed*3" (some 0) (some 4) (some 5) (some 123) 7 0 =
      .converted (.mul (.mul ppbV (.num 3)) hV) true := by
  have h := c10_unvalidated_success "=Plantings Per Bed*3"
    ⟨"per-plant", 3, true, "PPB_MULT", none⟩ (some 0) (some 4) (some 5) (some 123) 7 0 1
    (by decide) (by decide)
  exact ⟨h.1, h.2 ⟨.mul (.mul ppbV (.num 3)) hV, "PPB_MULT", false⟩
    (by decide)⟩

/-- C8 counterexample: at the row safety factor 1.1 the two scripts'
seed-based totals differ — migrate computes `16 * (1/16) / 1.1 * 1 = 10/11`
while convert's emitted formula gives `16 * 0.056818 * 1 = 0.909088` — so
"the two agree exactly iff safetyFactor = 1.1" fails at `safetyFactor = 1.1`. -/
theorem c8_seeds_inconsistency_counterexample :
    parse_uph_formula seedsRaw = some mSeeds
    ∧ parse_and_convert seedsRaw = some ⟨convSeedsExpr, "SEEDS_BASED", false⟩
    ∧ calculate_yield mSeeds (some 1) (some 1) 50 1 7 16 (11 / 10) = .ok (10 / 11)
    ∧ evaluate_formula convSeedsExpr (mkCtx 0 50 1 7 1 1 16) = some (28409 / 31250)
    ∧ (10 / 11 : ℚ) ≠ 28409 / 31250 := by
  refine ⟨by decide, by decide, ?_, ?_, by norm_num⟩
  · norm_num +decide [mSeeds, calculate_yield, calc_yield_ppb, calc_base_ppb, calculate_ppb,
      cdiv, emap]
  · norm_num +decide [convSeedsExpr, evaluate_formula, evalExpr, mkCtx, seedsV, hV]

/-- C8 amended: convert does bake an assumed 1.1 into the SEEDS_BASED rate
while migrate divides by the per-row safety factor — but convert also rounds
the baked rate to six decimals (`(1/16)/1.1` is emitted as `0.056818`), so
for nonzero seeds, harvests and safety factor the two computations agree
exactly iff `safetyFactor = (1/16)/0.056818` (≈ 1.1000035), not iff
`safetyFactor = 1.1`. -/
theorem c8_seeds_inconsistency_amended :
    ∀ (spacing rows : Option ℚ) (bl h dbh seeds sf ppb bf rws sp : ℚ),
      sf ≠ 0 → seeds ≠ 0 → h ≠ 0 →
      parse_uph_formula seedsRaw = some mSeeds
      ∧ parse_and_convert seedsRaw = some ⟨convSeedsExpr, "SEEDS_BASED", false⟩
      ∧ calculate_yield mSeeds spacing rows bl h dbh seeds sf =
          .ok (seeds * (1 / 16) / sf * h)
      ∧ evaluate_formula convSeedsExpr (mkCtx ppb bf h dbh rws sp seeds) =
          some (seeds * (28409 / 500000) * h)
      ∧ (seeds * (1 / 16) / sf * h = seeds * (28409 / 500000) * h ↔
          sf = (1 / 16) / (28409 / 500000)) := by
  intro spacing rows bl h dbh seeds sf ppb bf rws sp hsf hseeds hh
  refine ⟨by decide, by decide, ?_, ?_, ?_⟩
  · simp +decide [mSeeds, calculate_yield, calc_yield_ppb, calc_base_ppb, cdiv, emap, hsf]
  · simp +decide [convSeedsExpr, evaluate_formula, evalExpr, mkCtx, seedsV, hV]
  · constructor
    · intro heq
      have h1 := mul_right_cancel₀ hh heq
      rw [mul_div_assoc] at h1
      have h2 := mul_left_cancel₀ hseeds h1
      rw [div_eq_iff hsf] at h2
      rw [eq_div_iff (by norm_num : (28409 / 500000 : ℚ) ≠ 0), mul_comm]
      exact h2.symm
    · intro hval
      subst hval
      rw [mul_div_assoc,
        show (1 / 16 : ℚ) / (1 / 16 / (28409 / 500000)) = 28409 / 500000 by norm_num]

/-- Witness for C8 at the safety factor where the two computations agree. -/
theorem c8_seeds_inconsistency_witness :
    calculate_yield mSeeds (some 6) (some 4) 50 1 7 16 ((1 / 16) / (28409 / 500000)) =
      .ok (16 * (1 / 16) / ((1 / 16) / (28409 / 500000)) * 1)
    ∧ (16 * (1 / 16) / ((1 / 16) / (28409 / 500000)) * 1 : ℚ) =
      16 * (28409 / 500000) * 1 := by
  have h := c8_seeds_inconsistency_amended (some 6) (some 4) 50 1 7 16
    ((1 / 16) / (28409 / 500000)) 0 0 0 0 (by norm_num) (by norm_num) (by norm_num)
  exact ⟨h.2.2.1, h.2.2.2.2.mpr rfl⟩

end CropPlan


